import Mathlib

/-!
Verification development for the `qtwidgets` repository.

The development embeds the color widgets of the repository
(`widgets/color/colorButton.py` and `widgets/color/colorBox.py`) as
executable Lean definitions and proves the specified properties about
them.

Modelling conventions:
* Qt's `qreal` arithmetic is embedded as exact fraction arithmetic over
  `Int` (type `Frac` below, kept unnormalised so every operation is
  kernel-computable).  IEEE-double rounding error (< 2^-50 relative) is
  not modelled; every concrete value this development evaluates is far
  from a decision boundary of the 4-significant-digit decimal rounding
  used by the string formatter, except where noted in a comment.
* `QColor` is modelled in its RGB spec with 16-bit channels exactly as
  Qt stores them, plus the explicit `invalid` sentinel state.
* Python exceptions are modelled with `Except`; Qt signal emissions are
  returned as explicit event lists.
-/

/-- Exact fraction over `Int`, the embedding of Qt's `qreal`.  The
denominator is kept positive by all smart constructors; fractions are
deliberately never reduced so that no `gcd` computation is needed. -/
structure Frac where
  num : Int
  den : Int
deriving DecidableEq, Repr

namespace Frac

/-- Build a fraction, normalising the sign into the numerator. -/
def mk' (n d : Int) : Frac :=
  if d < 0 then ⟨-n, -d⟩ else ⟨n, d⟩

def ofInt (n : Int) : Frac := ⟨n, 1⟩

instance : OfNat Frac n := ⟨ofInt n⟩

def add (x y : Frac) : Frac := ⟨x.num * y.den + y.num * x.den, x.den * y.den⟩

def sub (x y : Frac) : Frac := ⟨x.num * y.den - y.num * x.den, x.den * y.den⟩

def mul (x y : Frac) : Frac := ⟨x.num * y.num, x.den * y.den⟩

def div (x y : Frac) : Frac := mk' (x.num * y.den) (x.den * y.num)

def neg (x : Frac) : Frac := ⟨-x.num, x.den⟩

instance : Add Frac := ⟨add⟩
instance : Sub Frac := ⟨sub⟩
instance : Mul Frac := ⟨mul⟩
instance : Div Frac := ⟨div⟩
instance : Neg Frac := ⟨neg⟩

/-- Boolean less-or-equal (denominators are positive by construction). -/
def leb (x y : Frac) : Bool := x.num * y.den ≤ y.num * x.den

/-- Boolean strict less-than. -/
def ltb (x y : Frac) : Bool := x.num * y.den < y.num * x.den

/-- Boolean value equality (not structural equality). -/
def eqb (x y : Frac) : Bool := x.num * y.den = y.num * x.den

/-- Floor to an integer (denominator positive by construction). -/
def floor (x : Frac) : Int := Int.fdiv x.num x.den

def abs (x : Frac) : Frac := ⟨|x.num|, |x.den|⟩

def half : Frac := ⟨1, 2⟩

end Frac

/-- Rounding to the nearest integer, halves away from zero.  This is both
Qt's `qRound` (`int(d + 0.5)` for `d >= 0`, `int(d - 0.5)` otherwise)
and Python `decimal`'s `ROUND_HALF_UP`. -/
def roundHalfUp (x : Frac) : Int :=
  if 0 ≤ x.num then Frac.floor (x + Frac.half)
  else -(Frac.floor (x.neg + Frac.half))

/-- Number of decimal digits of a natural number (1 for 0). -/
def ndigits (n : Nat) : Nat := (Nat.repr n).length

/-- Integer power of ten as a fraction, for an `Int` exponent. -/
def pow10 (e : Int) : Frac :=
  if 0 ≤ e then ⟨(10 : Int) ^ e.toNat, 1⟩ else ⟨1, (10 : Int) ^ (-e).toNat⟩

/-- Floor of the base-10 logarithm of a positive fraction. -/
def floorLog10 (x : Frac) : Int :=
  let dp : Int := ndigits x.num.natAbs - 1
  let dq : Int := ndigits x.den.natAbs - 1
  let e0 : Int := dp - dq
  if x.ltb (pow10 e0) then e0 - 1 else e0

/-- Rounding of a fraction to 4 significant decimal digits, halves away
from zero.  This embeds multiplication in the `decimal` context
installed at module scope in `colorButton.py`
(`decimal.Context(prec=4, rounding=decimal.ROUND_HALF_UP)`). -/
def decRound4 (x : Frac) : Frac :=
  if x.eqb 0 then Frac.ofInt 0
  else
    let a := x.abs
    let e : Int := floorLog10 a - 3
    let m : Int := roundHalfUp (a.div (pow10 e))
    let r : Frac := (Frac.ofInt m).mul (pow10 e)
    if x.num < 0 then r.neg else r

/-- Embedding of `decimal.Decimal(c) * k` under the module context of
`colorButton.py` (precision 4, half-up). -/
def decMul (c : Frac) (k : Int) : Frac := decRound4 (c.mul (Frac.ofInt k))

/-- Embedding of Python's `format(d, '.0f')` on a `decimal.Decimal`:
rounding to an integer with the context rounding (half-up), rendered in
base 10.  (Python renders `-0` for negative values rounding to zero;
no value in this development does.) -/
def fmt0 (x : Frac) : String := toString (roundHalfUp x)

/-! QColor, modelled from Qt 6 `qcolor.cpp` as used by the repository:
the RGB spec with 16-bit unsigned channels, plus the explicit invalid
sentinel.  (The repository only ever holds invalid or RGB-spec colors.) -/

/-- Model of `QtGui.QColor` restricted to the states the repository
creates: the invalid sentinel, or an RGB-spec color whose channels are
stored as 16-bit values `0..65535` exactly as in Qt's `ct.argb`. -/
inductive QColor where
  | invalid : QColor
  | rgb16 (red green blue alpha : Nat) : QColor
deriving DecidableEq, Repr

namespace QColor

/-- Modelled from Qt: `qt_div_257`, the rounding 16-bit → 8-bit channel
conversion `(x + 128 - (x >> 8)) >> 8`. -/
def qtDiv257 (x : Nat) : Nat := (x + 128 - (x >>> 8)) >>> 8

def isValid : QColor → Bool
  | .invalid => false
  | .rgb16 _ _ _ _ => true

/-- Modelled from Qt: `QColor::fromRgb(int, int, int, int)` — returns the
invalid color when a channel is outside `0..255`, otherwise stores each
8-bit channel scaled by `0x101`. -/
def fromRgb (r g b a : Int) : QColor :=
  if 0 ≤ r ∧ r ≤ 255 ∧ 0 ≤ g ∧ g ≤ 255 ∧ 0 ≤ b ∧ b ≤ 255 ∧ 0 ≤ a ∧ a ≤ 255 then
    .rgb16 (r.toNat * 0x101) (g.toNat * 0x101) (b.toNat * 0x101) (a.toNat * 0x101)
  else .invalid

/-- Modelled from Qt: `QColor::fromRgbF`.  For channels inside `[0, 1]`
each stored 16-bit channel is `qRound(c * 65535)`.  (Out-of-range
arguments would create an extended-sRGB color in Qt 6; every call site
in the repository clamps first, so that case is mapped to the invalid
sentinel here.) -/
def fromRgbF (r g b a : Frac) : QColor :=
  if ((Frac.ofInt 0).leb r && r.leb (Frac.ofInt 1) &&
      (Frac.ofInt 0).leb g && g.leb (Frac.ofInt 1) &&
      (Frac.ofInt 0).leb b && b.leb (Frac.ofInt 1) &&
      (Frac.ofInt 0).leb a && a.leb (Frac.ofInt 1)) then
    .rgb16 (roundHalfUp (r.mul (Frac.ofInt 65535))).toNat
           (roundHalfUp (g.mul (Frac.ofInt 65535))).toNat
           (roundHalfUp (b.mul (Frac.ofInt 65535))).toNat
           (roundHalfUp (a.mul (Frac.ofInt 65535))).toNat
  else .invalid

/-- Modelled from Qt: `QColor::getRgb`, 8-bit channels via `qt_div_257`.
An invalid color reads `(0, 0, 0, 255)` (after `invalidate()` the alpha
field is `USHRT_MAX` and the others zero). -/
def getRgb : QColor → Int × Int × Int × Int
  | .invalid => (0, 0, 0, 255)
  | .rgb16 r g b a => (qtDiv257 r, qtDiv257 g, qtDiv257 b, qtDiv257 a)

/-- Modelled from Qt: `QColor::getRgbF`, each 16-bit channel divided by
`USHRT_MAX`.  An invalid color reads `(0, 0, 0, 1)`. -/
def getRgbF : QColor → Frac × Frac × Frac × Frac
  | .invalid => (⟨0, 1⟩, ⟨0, 1⟩, ⟨0, 1⟩, ⟨1, 1⟩)
  | .rgb16 r g b a => (⟨r, 65535⟩, ⟨g, 65535⟩, ⟨b, 65535⟩, ⟨a, 65535⟩)

/-- Modelled from Qt: the HSL fields of `QColor::toHsl` for an RGB color
with the given 16-bit channels: hue in hundredths of a degree (with
`USHRT_MAX` as the achromatic sentinel), saturation and lightness as
16-bit values, each computed with `qRound` exactly as in `qcolor.cpp`.
`qFuzzyIsNull`/`qFuzzyCompare` are modelled as exact comparisons. -/
def toHslFields (r16 g16 b16 : Nat) : Nat × Nat × Nat :=
  let r : Frac := ⟨r16, 65535⟩
  let g : Frac := ⟨g16, 65535⟩
  let b : Frac := ⟨b16, 65535⟩
  let mx := if r.ltb g then (if g.ltb b then b else g) else (if r.ltb b then b else r)
  let mn := if g.ltb r then (if b.ltb g then b else g) else (if b.ltb r then b else r)
  let delta := mx.sub mn
  let delta2 := mx.add mn
  let lightness := Frac.half.mul delta2
  let l16 := (roundHalfUp (lightness.mul (Frac.ofInt 65535))).toNat
  if delta.eqb 0 then (65535, 0, l16)
  else
    let s16 :=
      if lightness.ltb Frac.half then
        (roundHalfUp ((delta.div delta2).mul (Frac.ofInt 65535))).toNat
      else
        (roundHalfUp ((delta.div ((Frac.ofInt 2).sub delta2)).mul (Frac.ofInt 65535))).toNat
    let hue0 :=
      if r.eqb mx then (g.sub b).div delta
      else if g.eqb mx then (Frac.ofInt 2).add ((b.sub r).div delta)
      else (Frac.ofInt 4).add ((r.sub g).div delta)
    let hue1 := hue0.mul (Frac.ofInt 60)
    let hue2 := if hue1.ltb (Frac.ofInt 0) then hue1.add (Frac.ofInt 360) else hue1
    ((roundHalfUp (hue2.mul (Frac.ofInt 100))).toNat, s16, l16)

/-- Modelled from Qt: `QColor::hslHueF` — `-1` for the achromatic
sentinel, otherwise the stored hue divided by 36000.  An invalid color
reads hue field 0. -/
def hslHueF : QColor → Frac
  | .invalid => ⟨0, 1⟩
  | .rgb16 r g b _ =>
    let (h, _, _) := toHslFields r g b
    if h = 65535 then ⟨-1, 1⟩ else ⟨(h : Int), 36000⟩

/-- Modelled from Qt: `QColor::getHslF` — `(hue, saturation, lightness,
alpha)` as fractions of `36000`/`USHRT_MAX`.  An invalid color reads
`(0, 0, 0, 1)`. -/
def getHslF : QColor → Frac × Frac × Frac × Frac
  | .invalid => (⟨0, 1⟩, ⟨0, 1⟩, ⟨0, 1⟩, ⟨1, 1⟩)
  | .rgb16 r g b a =>
    let (h, s, l) := toHslFields r g b
    (if h = 65535 then ⟨-1, 1⟩ else ⟨(h : Int), 36000⟩,
     ⟨(s : Int), 65535⟩, ⟨(l : Int), 65535⟩, ⟨(a : Int), 65535⟩)

/-- Lowercase hexadecimal digit. -/
def hexChar (n : Nat) : Char :=
  if n < 10 then Char.ofNat ('0'.toNat + n) else Char.ofNat ('a'.toNat + (n - 10))

/-- Two lowercase hex digits of an 8-bit value. -/
def hex2 (n : Nat) : List Char := [hexChar (n / 16), hexChar (n % 16)]

/-- Modelled from Qt: `QColor::name()` (format `HexRgb`): `#rrggbb` in
lowercase from the 8-bit channels; `#000000` for the invalid color. -/
def name (c : QColor) : String :=
  match c with
  | .invalid => "#000000"
  | .rgb16 r g b _ =>
    String.mk ('#' :: (hex2 (qtDiv257 r) ++ hex2 (qtDiv257 g) ++ hex2 (qtDiv257 b)))

/-- Value of a lowercase hexadecimal digit character. -/
def hexVal (c : Char) : Nat :=
  if '0' ≤ c ∧ c ≤ '9' then c.toNat - '0'.toNat
  else c.toNat - 'a'.toNat + 10

/-- Modelled from Qt: the list returned by `QColor.colorNames()` — the
SVG color keyword names, sorted, as Qt ships them. -/
def colorNames : List String :=
  ["aliceblue", "antiquewhite", "aqua", "aquamarine", "azure", "beige", "bisque",
   "black", "blanchedalmond", "blue", "blueviolet", "brown", "burlywood",
   "cadetblue", "chartreuse", "chocolate", "coral", "cornflowerblue", "cornsilk",
   "crimson", "cyan", "darkblue", "darkcyan", "darkgoldenrod", "darkgray",
   "darkgreen", "darkgrey", "darkkhaki", "darkmagenta", "darkolivegreen",
   "darkorange", "darkorchid", "darkred", "darksalmon", "darkseagreen",
   "darkslateblue", "darkslategray", "darkslategrey", "darkturquoise",
   "darkviolet", "deeppink", "deepskyblue", "dimgray", "dimgrey", "dodgerblue",
   "firebrick", "floralwhite", "forestgreen", "fuchsia", "gainsboro",
   "ghostwhite", "gold", "goldenrod", "gray", "green", "greenyellow", "grey",
   "honeydew", "hotpink", "indianred", "indigo", "ivory", "khaki", "lavender",
   "lavenderblush", "lawngreen", "lemonchiffon", "lightblue", "lightcoral",
   "lightcyan", "lightgoldenrodyellow", "lightgray", "lightgreen", "lightgrey",
   "lightpink", "lightsalmon", "lightseagreen", "lightskyblue",
   "lightslategray", "lightslategrey", "lightsteelblue", "lightyellow", "lime",
   "limegreen", "linen", "magenta", "maroon", "mediumaquamarine", "mediumblue",
   "mediumorchid", "mediumpurple", "mediumseagreen", "mediumslateblue",
   "mediumspringgreen", "mediumturquoise", "mediumvioletred", "midnightblue",
   "mintcream", "mistyrose", "moccasin", "navajowhite", "navy", "oldlace",
   "olive", "olivedrab", "orange", "orangered", "orchid", "palegoldenrod",
   "palegreen", "paleturquoise", "palevioletred", "papayawhip", "peachpuff",
   "peru", "pink", "plum", "powderblue", "purple", "red", "rosybrown",
   "royalblue", "saddlebrown", "salmon", "sandybrown", "seagreen", "seashell",
   "sienna", "silver", "skyblue", "slateblue", "slategray", "slategrey", "snow",
   "springgreen", "steelblue", "tan", "teal", "thistle", "tomato",
   "transparent", "turquoise", "violet", "wheat", "white", "whitesmoke",
   "yellow", "yellowgreen"]

/-- Modelled from Qt: RGB values of the SVG color table, restricted to
the names this development evaluates (the repository code paths the
claims exercise never read a named color's channel values; unlisted
names map to the invalid sentinel here). -/
def namedColorValue (s : String) : QColor :=
  if s = "black" then fromRgb 0 0 0 255
  else if s = "white" then fromRgb 255 255 255 255
  else if s = "red" then fromRgb 255 0 0 255
  else if s = "lightgrey" then fromRgb 211 211 211 255
  else if s = "steelblue" then fromRgb 70 130 180 255
  else .invalid

/-- Modelled from Qt: the `QColor(str)` constructor for the string forms
the repository uses: `#rgb` and `#rrggbb` hex strings (lowercase, as the
call sites pre-normalise), SVG color names, and anything else — such as
the literal `'Invalid'` used in `colorButton.py` — giving the invalid
color. -/
def ofString (s : String) : QColor :=
  let cs := s.toList
  match cs with
  | '#' :: rest =>
    if rest.length = 6 then
      match rest with
      | [r1, r2, g1, g2, b1, b2] =>
        fromRgb (16 * hexVal r1 + hexVal r2) (16 * hexVal g1 + hexVal g2)
          (16 * hexVal b1 + hexVal b2) 255
      | _ => .invalid
    else if rest.length = 3 then
      match rest with
      | [r1, g1, b1] =>
        fromRgb (17 * hexVal r1) (17 * hexVal g1) (17 * hexVal b1) 255
      | _ => .invalid
    else .invalid
  | _ => if colorNames.contains s then namedColorValue s else .invalid

end QColor

/-- Python `str.lower()` restricted to ASCII, as both repository call
sites only handle ASCII color strings. -/
def pyLower (s : String) : String := String.mk (s.toList.map Char.toLower)

/-- Python `str.upper()` restricted to ASCII. -/
def pyUpper (s : String) : String := String.mk (s.toList.map Char.toUpper)

/-! ColorButton, embedded from `widgets/color/colorButton.py`. -/

namespace ColorButton

/-- The per-instance state of a `ColorButton`: the stored color, the
formatted color string and tooltip, the widget properties driving the
paint code, the output format, and the interaction configuration. -/
structure State where
  color : QColor
  colorString : String
  toolTip : String
  hover : Bool
  contextMenuVisible : Bool
  colorFormat : String
  clickToOpen : Bool
  outlineColor : QColor
  hoverOutlineColor : QColor
  dragStartPosition : Int × Int
deriving DecidableEq, Repr

/-- Embedding of the `rgb` branch of `ColorButton.__parseColor`:
`red, green, blue, _ = [decimal.Decimal(c) * 255 for c in color.getRgbF()]`
rendered as `f'rgb({red:.0f}, {green:.0f}, {blue:.0f}) '` — note the
trailing space present in the source f-string. -/
def rgbString (c : QColor) : String :=
  let (r, g, b, _) := c.getRgbF
  "rgb(" ++ fmt0 (decMul r 255) ++ ", " ++ fmt0 (decMul g 255) ++ ", " ++
    fmt0 (decMul b 255) ++ ") "

/-- Embedding of the `hsl` branch of `ColorButton.__parseColor`:
`h = Decimal(color.hslHueF()) * 360`, saturation and lightness from
`getHslF()[1:-1]` times 100, rendered as
`f'hsl({h:.0f}, {saturation:.0f}%, {lightness:.0f}%) '` — note the
trailing space present in the source f-string. -/
def hslString (c : QColor) : String :=
  let (_, s, l, _) := c.getHslF
  let h := decMul c.hslHueF 360
  "hsl(" ++ fmt0 h ++ ", " ++ fmt0 (decMul s 100) ++ "%, " ++
    fmt0 (decMul l 100) ++ "%) "

/-- The string computed by `ColorButton.__parseColor` (local variable
`s` in the source) for a color and the lowercased output format: the
`match` over `'hex'`/`'rgb'`/`'hsl'`, empty for any other format. -/
def formatString (colorFormat : String) (color : QColor) : String :=
  let cf := pyLower colorFormat
  if cf = "hex" then pyUpper color.name
  else if cf = "rgb" then rgbString color
  else if cf = "hsl" then hslString color
  else ""

/-- Embedding of `ColorButton.__parseColor`: recompute the clipboard /
tooltip string for the current color and format, skipping the tooltip
update when the string is unchanged. -/
def parseColor (s : State) : State :=
  let str := formatString s.colorFormat s.color
  if s.colorString = str then s
  else { s with colorString := str, toolTip := str }

/-- Embedding of `ColorButton.setColor`: store the color, re-parse the
string, request a repaint, and emit `colorChanged` carrying the new
color.  The returned list holds the colors carried by emitted
`colorChanged` signals. -/
def setColor (c : QColor) (s : State) : State × List QColor :=
  (parseColor { s with color := c }, [c])

/-- The dialog's `currentColorChanged` signal is connected to
`setColor`; this folds one `setColor` call per live color change,
accumulating the emitted `colorChanged` events. -/
def applyLiveChanges (lives : List QColor) (s : State) : State × List QColor :=
  match lives with
  | [] => (s, [])
  | c :: rest =>
    let (s1, e1) := setColor c s
    let (s2, e2) := applyLiveChanges rest s1
    (s2, e1 ++ e2)

/-- Embedding of `ColorButton.__openDialog`: snapshot the pre-dialog
color, forward every live color change of the modal dialog to
`setColor`, and on close either re-emit the final selection (acceptance,
`result() & Accepted`) — which reaches `setColor` through the same
connection — or restore the snapshot via `setColor` (cancellation). -/
def openDialog (s : State) (lives : List QColor) (accepted : Bool)
    (finalSelection : QColor) : State × List QColor :=
  let lastColor := s.color
  let (s1, e1) := applyLiveChanges lives s
  if accepted then
    let (s2, e2) := setColor finalSelection s1
    (s2, e1 ++ e2)
  else
    let (s2, e2) := setColor lastColor s1
    (s2, e1 ++ e2)

/-- A drag-and-drop payload: which MIME formats it carries, and the
color decoded from the `application/x-color` data stream (the
`QDataStream` round-trip of a `QColor` is modelled as the identity). -/
structure MimeData where
  hasColorFormat : Bool
  colorData : QColor
deriving DecidableEq, Repr

/-- Embedding of `ColorButton.dropEvent`: a payload without the
`application/x-color` format is ignored (event not accepted, no state
change); a matching payload is accepted, decoded and applied via
`setColor`.  Returns the new state, whether the event was accepted, and
the emitted `colorChanged` events. -/
def dropEvent (m : MimeData) (s : State) : State × Bool × List QColor :=
  if !m.hasColorFormat then (s, false, [])
  else
    let (s1, e1) := setColor m.colorData s
    (s1, true, e1)

/-- Embedding of `ColorButton.dragEnterEvent`: only a payload carrying
the color MIME type is accepted and sets the hover property. -/
def dragEnterEvent (m : MimeData) (s : State) : State × Bool :=
  if !m.hasColorFormat then (s, false)
  else ({ s with hover := true }, true)

/-- Embedding of `ColorButton.__dragIt`: no drag is started when the
stored color is invalid; otherwise the drag exports a payload whose
`application/x-color` data is the stored color.  The state is returned
unchanged (the method only requests repaints). -/
def dragIt (s : State) : State × Option MimeData :=
  if !s.color.isValid then (s, none)
  else (s, some ⟨true, s.color⟩)

/-- Manhattan length of a point, as `QPoint.manhattanLength`. -/
def manhattanLength (p : Int × Int) : Int := |p.1| + |p.2|

/-- Embedding of `ColorButton.mouseMoveEvent`: with a button set other
than exactly the left button the event is ignored; otherwise a drag is
started once the cursor has moved at least the platform drag distance
from the press position. -/
def mouseMoveEvent (buttons : Nat) (pos : Int × Int) (startDragDistance : Int)
    (s : State) : State × Option MimeData :=
  if buttons ^^^ 1 ≠ 0 then (s, none)
  else
    let delta := manhattanLength (pos.1 - s.dragStartPosition.1,
                                  pos.2 - s.dragStartPosition.2)
    if startDragDistance ≤ delta then dragIt s else (s, none)

/-- One painter operation issued by `paintEvent` / `paintErrorBox`. -/
inductive PaintOp where
  | setPen (c : QColor)
  | fillSolid (c : QColor)
  | fillDense4 (c : QColor)
  | fillTranslucent (c : QColor)
  | drawLineTopLeftBottomRight
  | drawLineTopRightBottomLeft
  | strokePath
deriving DecidableEq, Repr

/-- Embedding of `ColorButton.paintErrorBox`: a black `Dense4Pattern`
checkerboard fill, the pen switched to red, a translucent red fill while
hovered, and the two diagonals of the red X. -/
def paintErrorBox (s : State) : List PaintOp :=
  [PaintOp.fillDense4 (QColor.fromRgb 0 0 0 255),
   PaintOp.setPen (QColor.fromRgb 255 0 0 255)] ++
  (if s.hover then [PaintOp.fillTranslucent (QColor.fromRgb 255 0 0 40)] else []) ++
  [PaintOp.drawLineTopLeftBottomRight, PaintOp.drawLineTopRightBottomLeft]

/-- Embedding of `ColorButton.paintEvent`: pen selection from the hover
and context-menu properties, then either a solid fill with the stored
color (valid case) or the error box (invalid case), then the outline
stroke. -/
def paintEvent (s : State) : List PaintOp :=
  [PaintOp.setPen (if s.hover || s.contextMenuVisible
                   then s.hoverOutlineColor else s.outlineColor)] ++
  (if s.color.isValid then [PaintOp.fillSolid s.color] else paintErrorBox s) ++
  [PaintOp.strokePath]

/-- State of a fresh `ColorButton` right before the constructor's
`setColor` call: no color argument (`QColor('Invalid')` default), empty
strings, class-level format `'RGB'`, black SVG outline, hover outline
`QColor(200, 30, 0)`. -/
def initState : State :=
  { color := QColor.ofString "Invalid"
    colorString := ""
    toolTip := ""
    hover := false
    contextMenuVisible := false
    colorFormat := "RGB"
    clickToOpen := false
    outlineColor := QColor.fromRgb 0 0 0 255
    hoverOutlineColor := QColor.fromRgb 200 30 0 255
    dragStartPosition := (0, 0) }

end ColorButton

/-- Decidable equality for `Except`, used to evaluate the fallible
`ColorBox.setColor` overloads on concrete inputs. -/
instance {e a : Type} [DecidableEq e] [DecidableEq a] : DecidableEq (Except e a) := fun x y =>
  match x, y with
  | .ok u, .ok v =>
    if h : u = v then .isTrue (by rw [h]) else .isFalse (fun hc => h (Except.ok.inj hc))
  | .error u, .error v =>
    if h : u = v then .isTrue (by rw [h]) else .isFalse (fun hc => h (Except.error.inj hc))
  | .ok _, .error _ => .isFalse (fun hc => Except.noConfusion hc)
  | .error _, .ok _ => .isFalse (fun hc => Except.noConfusion hc)

/-! ColorBox, embedded from `widgets/color/colorBox.py`. -/

/-- A Python numeric value as dispatched on by
`functools.singledispatchmethod`: an `int` or a `float` (embedded as an
exact fraction). -/
inductive PyNum where
  | i (n : Int)
  | f (q : Frac)
deriving DecidableEq, Repr

namespace PyNum

def toFrac : PyNum → Frac
  | .i n => Frac.ofInt n
  | .f q => q

/-- Whether the value is a Python `int`. -/
def isInt : PyNum → Bool
  | .i _ => true
  | .f _ => false

end PyNum

/-- Python `min(a, b)` (also `min` of a pair): the second argument is
returned only when strictly smaller. -/
def pyMin (a b : PyNum) : PyNum := if b.toFrac.ltb a.toFrac then b else a

/-- Python `max(a, b)`: the second argument is returned only when
strictly larger. -/
def pyMax (a b : PyNum) : PyNum := if a.toFrac.ltb b.toFrac then b else a

/-- A Python exception raised by `ColorBox.setColor`. -/
inductive PyError where
  | valueError (msg : String)
  | indexError
  | typeError
deriving DecidableEq, Repr

namespace ColorBox

/-- The `VALID_COLORS` constant of `colorBox.py`. -/
def validColors : String := "0123456789abcdef"

/-- The `_rgb` attribute: `None` before any assignment, then the tuple
returned by `getRgb` (ints) or `getRgbF` (floats). -/
inductive RgbVal where
  | noneVal
  | ints (r g b a : Int)
  | floats (r g b a : Frac)
deriving DecidableEq, Repr

/-- The per-instance state of a `ColorBox`: the channel attributes
`r, g, b, a`, the `_rgb` tuple, the stored `_color` (Python `None`
before the first assignment), and the tooltip. -/
structure State where
  r : PyNum
  g : PyNum
  b : PyNum
  a : PyNum
  rgbVal : RgbVal
  storedColor : Option QColor
  toolTip : String
deriving DecidableEq, Repr

/-- State of a fresh `ColorBox`: channels `0`, `_rgb` and `_color`
`None`. -/
def initState : State :=
  { r := .i 0, g := .i 0, b := .i 0, a := .i 0
    rgbVal := .noneVal, storedColor := none, toolTip := "" }

/-- Rounding to the nearest integer, halves to even — Python's rounding
for `float.__format__` (ties of the underlying binary double are not
modelled; no value this development renders is a tie). -/
def roundHalfEven (x : Frac) : Int :=
  let fl := Frac.floor x
  let r := x.sub (Frac.ofInt fl)
  if r.ltb Frac.half then fl
  else if Frac.half.ltb r then fl + 1
  else if fl % 2 = 0 then fl else fl + 1

/-- Python `f'{x:.3f}'` on a (nonnegative) float, modelled on the exact
fraction: three decimal places, halves to even. -/
def fmt3 (x : Frac) : String :=
  let n := roundHalfEven (x.mul (Frac.ofInt 1000))
  let ip := n / 1000
  let fp := (n % 1000).toNat
  let digits := Nat.repr fp
  let pad := String.mk (List.replicate (3 - digits.length) '0')
  toString ip ++ "." ++ pad ++ digits

/-- Embedding of `ColorBox.update`: recompute the channel attributes and
the tooltip.  The branch test is the source's
`any(isinstance(chan, float) in self._rgb for chan in self._rgb)` —
`in` tests membership of the *boolean* in the tuple, so an int tuple
selects the float branch iff it contains `0` (`False == 0`) and a float
tuple does so iff it contains `1` (`True == 1`).  Unreachable `None`
cases (which would raise in Python) leave the state unchanged. -/
def update (s : State) : State :=
  match s.storedColor with
  | none => s
  | some c =>
    let floatBranch :=
      match s.rgbVal with
      | .noneVal => false
      | .ints r g b a => r = 0 ∨ g = 0 ∨ b = 0 ∨ a = 0
      | .floats r g b a => r.eqb 1 ∨ g.eqb 1 ∨ b.eqb 1 ∨ a.eqb 1
    if floatBranch then
      let (r, g, b, a) := c.getRgbF
      { s with r := .f r, g := .f g, b := .f b, a := .f a
               toolTip := "Hex: " ++ c.name ++ "\n" ++
                 "R: " ++ fmt3 r ++ "  G: " ++ fmt3 g ++ "  B: " ++ fmt3 b ++
                 "  A: " ++ fmt3 a }
    else
      let (r, g, b, a) := c.getRgb
      { s with r := .i r, g := .i g, b := .i b, a := .i a
               toolTip := "Hex: " ++ c.name ++ "\n" ++
                 "R: " ++ toString r ++ "  G: " ++ toString g ++
                 "  B: " ++ toString b ++ "  A: " ++ toString a }

/-- Embedding of the base (non-float) overload of `ColorBox.clamp`,
selected when the red channel is an `int`: each channel becomes
`max(0, min(255, x))`. -/
def clampInt255 (x : PyNum) : PyNum := pyMax (.i 0) (pyMin (.i 255) x)

/-- Embedding of the `float` overload of `ColorBox.clamp`, selected when
the red channel is a `float`: each channel becomes
`max(0, min((1, x)))`. -/
def clampFloat1 (x : PyNum) : PyNum := pyMax (.i 0) (pyMin (.i 1) x)

/-- Embedding of the numeric overloads of `ColorBox.setColor`
(`functools.singledispatchmethod` dispatches on the red channel's
runtime type): the `int` registration clamps every channel to
`0..255` and stores `QColor.fromRgb(*...)`; the base `Real` overload
(reached when the red channel is a `float`) clamps every channel to
`0..1` and stores `QColor.fromRgbF(*...)`.  `QColor.fromRgb` with a
non-`int` argument raises `TypeError` at the PyQt boundary. -/
def setColorNum (r g b a : PyNum) (s : State) : Except PyError State :=
  if r.isInt then
    match clampInt255 r, clampInt255 g, clampInt255 b, clampInt255 a with
    | .i r', .i g', .i b', .i a' =>
      let c := QColor.fromRgb r' g' b' a'
      let (cr, cg, cb, ca) := c.getRgb
      .ok (update { s with storedColor := some c, rgbVal := .ints cr cg cb ca })
    | _, _, _, _ => .error .typeError
  else
    let c := QColor.fromRgbF (clampFloat1 r).toFrac (clampFloat1 g).toFrac
      (clampFloat1 b).toFrac (clampFloat1 a).toFrac
    let (cr, cg, cb, ca) := c.getRgbF
    .ok (update { s with storedColor := some c, rgbVal := .floats cr cg cb ca })

/-- Embedding of the `QColor` overload of `ColorBox.setColor`. -/
def setColorQColor (c : QColor) (s : State) : State :=
  let (cr, cg, cb, ca) := c.getRgb
  update { s with storedColor := some c, rgbVal := .ints cr cg cb ca }

/-- Embedding of `color.lower().strip()` at the head of the string
overload: ASCII lowercasing followed by whitespace stripping at both
ends. -/
def normalizeColorString (raw : String) : String :=
  String.mk ((((raw.toList.map Char.toLower).dropWhile
    Char.isWhitespace).reverse.dropWhile Char.isWhitespace).reverse)

/-- Store a parsed color and refresh, shared tail of the string
overload's branches. -/
def storeParsed (c : QColor) (s : State) : State :=
  let (cr, cg, cb, ca) := c.getRgb
  update { s with storedColor := some c, rgbVal := .ints cr cg cb ca }

/-- Embedding of the `str` overload of `ColorBox.setColor`: the input is
lowercased and stripped; a recognised color name is looked up directly;
otherwise the string must start with `#`, contain only hex digits and
have length 4, 5, 7 or 9, else `ValueError` is raised (indexing an
empty string raises `IndexError`).  Lengths 7 and 4 go through the
`QColor(str)` constructor; lengths 9 and 5 are decoded to four 8-bit
integers fed to `QColor(int, int, int, int)`.  No state is modified on
the raising paths. -/
def setColorStr (raw : String) (s : State) : Except PyError State :=
  let color := normalizeColorString raw
  let numChars := color.toList.length
  if QColor.colorNames.contains color then
    .ok (storeParsed (QColor.ofString color) s)
  else
    match color.toList with
    | [] => .error .indexError
    | c0 :: rest =>
      if c0 ≠ '#' ∨ rest.any (fun ch => !(validColors.toList.contains ch)) ∨
          ¬(numChars = 4 ∨ numChars = 5 ∨ numChars = 7 ∨ numChars = 9) then
        .error (.valueError ("Invalid color string: " ++ color ++ " "))
      else if numChars = 7 ∨ numChars = 4 then
        .ok (storeParsed (QColor.ofString color) s)
      else
        let tuple : Int × Int × Int × Int :=
          if numChars = 5 then
            match rest with
            | [d1, d2, d3, d4] =>
              (17 * QColor.hexVal d1, 17 * QColor.hexVal d2,
               17 * QColor.hexVal d3, 17 * QColor.hexVal d4)
            | _ => (0, 0, 0, 0)
          else
            match rest with
            | [c1, c2, c3, c4, c5, c6, c7, c8] =>
              (16 * QColor.hexVal c1 + QColor.hexVal c2,
               16 * QColor.hexVal c3 + QColor.hexVal c4,
               16 * QColor.hexVal c5 + QColor.hexVal c6,
               16 * QColor.hexVal c7 + QColor.hexVal c8)
            | _ => (0, 0, 0, 0)
        .ok (storeParsed (QColor.fromRgb tuple.1 tuple.2.1 tuple.2.2.1 tuple.2.2.2) s)

end ColorBox

/-- Modelled from the spec: clamping an integer channel "into [0, 255]"
by "replacing out-of-range values with the nearest bound". -/
def specClampInt (x : Int) : Int := max 0 (min 255 x)

/-- Modelled from the spec: clamping a normalized float channel "into
[0.0, 1.0]" by replacing out-of-range values with the nearest bound. -/
def specClampFrac (x : Frac) : Frac :=
  if (Frac.ofInt 1).leb x then Frac.ofInt 1
  else if x.leb (Frac.ofInt 0) then Frac.ofInt 0
  else x

/-! Helper lemmas. -/

/-- `__parseColor` only rewrites the string and tooltip fields; the
stored color is untouched. -/
theorem parseColor_color (s : ColorButton.State) :
    (ColorButton.parseColor s).color = s.color := by
  unfold ColorButton.parseColor
  dsimp only
  split <;> rfl

/-- `__parseColor` preserves every interaction field. -/
theorem parseColor_fields (s : ColorButton.State) :
    (ColorButton.parseColor s).hover = s.hover ∧
      (ColorButton.parseColor s).contextMenuVisible = s.contextMenuVisible ∧
      (ColorButton.parseColor s).colorFormat = s.colorFormat ∧
      (ColorButton.parseColor s).outlineColor = s.outlineColor ∧
      (ColorButton.parseColor s).hoverOutlineColor = s.hoverOutlineColor := by
  unfold ColorButton.parseColor
  dsimp only
  split <;> exact ⟨rfl, rfl, rfl, rfl, rfl⟩

/-- `setColor` stores exactly the given color. -/
theorem setColor_color (c : QColor) (s : ColorButton.State) :
    ((ColorButton.setColor c s).1).color = c := by
  unfold ColorButton.setColor
  exact parseColor_color _

/-- `setColor` emits exactly one `colorChanged`, carrying the new
color. -/
theorem setColor_events (c : QColor) (s : ColorButton.State) :
    (ColorButton.setColor c s).2 = [c] := rfl

/-- The fold of live dialog changes emits exactly the forwarded colors,
in order. -/
theorem applyLiveChanges_events (lives : List QColor) :
    ∀ s, (ColorButton.applyLiveChanges lives s).2 = lives := by
  induction lives with
  | nil => intro s; rfl
  | cons c rest ih =>
    intro s
    show (c :: (ColorButton.applyLiveChanges rest _).2) = c :: rest
    rw [ih]

/-! Claim theorems. -/

/-- C1: for every pre-dialog color and every sequence of live color
changes forwarded while the modal picker is open, closing the dialog by
cancellation leaves the stored color equal to the pre-open snapshot
(hence equal to none of the intermediate live-preview values unless
they already equalled it), and the restoration goes through `setColor`:
the emitted `colorChanged` sequence is exactly the live changes followed
by one final emission carrying the snapshot. -/
theorem cancelRestoresSnapshotViaSetColor (s : ColorButton.State)
    (lives : List QColor) (finalSelection : QColor) :
    ((ColorButton.openDialog s lives false finalSelection).1).color = s.color ∧
      (ColorButton.openDialog s lives false finalSelection).2 =
        lives ++ [s.color] := by
  unfold ColorButton.openDialog
  dsimp only
  rw [if_neg (by simp)]
  constructor
  · exact setColor_color _ _
  · rw [setColor_events, applyLiveChanges_events]

/-- C3: closing the modal picker by acceptance applies the dialog's
final selection through `setColor`, regardless of the intermediate
live-preview values: the stored color afterwards is the final selection
and the emitted `colorChanged` sequence is the live changes followed by
one emission carrying the final selection. -/
theorem acceptAppliesFinalSelection (s : ColorButton.State)
    (lives : List QColor) (finalSelection : QColor) :
    ((ColorButton.openDialog s lives true finalSelection).1).color =
        finalSelection ∧
      (ColorButton.openDialog s lives true finalSelection).2 =
        lives ++ [finalSelection] := by
  unfold ColorButton.openDialog
  dsimp only
  rw [if_pos rfl]
  constructor
  · exact setColor_color _ _
  · rw [setColor_events, applyLiveChanges_events]

/-- C4: `ColorButton.setColor` replaces the stored color unconditionally
— for every color value, valid or invalid, and every starting state —
and emits exactly one `colorChanged` notification carrying exactly the
new color.  `openDialog`'s rollback path calls this same function
(see `cancelRestoresSnapshotViaSetColor`). -/
theorem setColorUnconditionalAndEmits (c : QColor) (s : ColorButton.State) :
    ((ColorButton.setColor c s).1).color = c ∧
      (ColorButton.setColor c s).2 = [c] :=
  ⟨setColor_color c s, setColor_events c s⟩

/-- C5: a drop event whose MIME payload does not carry the
`application/x-color` format leaves the entire control state — in
particular the stored color and the hover property — unchanged, marks
the event as not accepted, and emits nothing. -/
theorem nonMatchingDropRejected (m : ColorButton.MimeData)
    (s : ColorButton.State) (h : m.hasColorFormat = false) :
    ColorButton.dropEvent m s = (s, false, []) := by
  unfold ColorButton.dropEvent
  rw [h]
  rfl

/-- Witness for `nonMatchingDropRejected` at a concrete payload (a text
drop carrying no color data) and the freshly constructed button. -/
theorem nonMatchingDropRejected_witness :
    ColorButton.dropEvent ⟨false, QColor.fromRgb 10 20 30 255⟩
        ColorButton.initState =
      (ColorButton.initState, false, []) :=
  nonMatchingDropRejected _ _ rfl

/-- The stored color of claim C2: integer channels `(4, 66, 227)`,
opaque. -/
def c2Color : QColor := QColor.fromRgb 4 66 227 255

/-- C2 (counterexample): for the stored color `(4, 66, 227)` the
formatted clipboard/tooltip string is *not* exactly
`hsl(223, 97%, 45%)` under the HSL format, nor exactly
`rgb(4, 66, 227)` under the RGB format: the source f-strings
`f'hsl({h:.0f}, {saturation:.0f}%, {lightness:.0f}%) '` and
`f'rgb({red:.0f}, {green:.0f}, {blue:.0f}) '` append a trailing
space. -/
theorem formattedStringExact_counterexample :
    ¬(((ColorButton.setColor c2Color
          { ColorButton.initState with colorFormat := "HSL" }).1).colorString =
        "hsl(223, 97%, 45%)") ∧
      ¬(((ColorButton.setColor c2Color
          { ColorButton.initState with colorFormat := "RGB" }).1).colorString =
        "rgb(4, 66, 227)") := by
  constructor
  · decide
  · decide

/-- C2 (amended): for the stored color with integer channels
`(4, 66, 227)` the formatted clipboard/tooltip string equals
`"hsl(223, 97%, 45%) "` — with one trailing space — when the output
format is HSL, and `"rgb(4, 66, 227) "` — with one trailing space —
when the output format is RGB, the channel values being computed from
the normalized float representation scaled (×255 for RGB; hue ×360,
saturation and lightness ×100 for HSL) and rounded half-up. -/
theorem formattedStringWithTrailingSpace :
    ((ColorButton.setColor c2Color
        { ColorButton.initState with colorFormat := "HSL" }).1).colorString =
      "hsl(223, 97%, 45%) " ∧
      ((ColorButton.setColor c2Color
        { ColorButton.initState with colorFormat := "RGB" }).1).colorString =
      "rgb(4, 66, 227) " := by
  constructor
  · decide
  · decide

/-- C9: assigning the invalid sentinel color through `setColor` is
permitted — it stores the sentinel and completes like any other
assignment — and painting any state whose stored color is invalid
issues exactly the invalid-state rendering sequence: the black
`Dense4Pattern` checkerboard fill instead of a solid fill, the pen
switched to red (so both the X and the final outline stroke are red), a
translucent red tint while hovered, and the two diagonals of the X; in
particular no solid fill with any color is issued. -/
theorem invalidColorAcceptedAndPaintsErrorPath :
    (∀ s : ColorButton.State,
      ((ColorButton.setColor QColor.invalid s).1).color = QColor.invalid) ∧
      (∀ s : ColorButton.State, s.color = QColor.invalid →
        ColorButton.paintEvent s =
          [ColorButton.PaintOp.setPen
              (if s.hover || s.contextMenuVisible then s.hoverOutlineColor
               else s.outlineColor),
           ColorButton.PaintOp.fillDense4 (QColor.fromRgb 0 0 0 255),
           ColorButton.PaintOp.setPen (QColor.fromRgb 255 0 0 255)] ++
          (if s.hover
           then [ColorButton.PaintOp.fillTranslucent (QColor.fromRgb 255 0 0 40)]
           else []) ++
          [ColorButton.PaintOp.drawLineTopLeftBottomRight,
           ColorButton.PaintOp.drawLineTopRightBottomLeft,
           ColorButton.PaintOp.strokePath] ∧
        ∀ c : QColor,
          ColorButton.PaintOp.fillSolid c ∉ ColorButton.paintEvent s) := by
  constructor
  · intro s
    exact setColor_color _ _
  · intro s h
    constructor
    · simp [ColorButton.paintEvent, ColorButton.paintErrorBox, h, QColor.isValid]
    · intro c
      simp [ColorButton.paintEvent, ColorButton.paintErrorBox, h, QColor.isValid]

/-- Witness for `invalidColorAcceptedAndPaintsErrorPath` at the freshly
constructed button, whose default color is `QColor('Invalid')`. -/
theorem invalidColorAcceptedAndPaintsErrorPath_witness :
    ((ColorButton.setColor QColor.invalid ColorButton.initState).1).color =
        QColor.invalid ∧
      ColorButton.PaintOp.fillSolid (QColor.fromRgb 0 0 0 255) ∉
        ColorButton.paintEvent ColorButton.initState :=
  ⟨invalidColorAcceptedAndPaintsErrorPath.1 ColorButton.initState,
   (invalidColorAcceptedAndPaintsErrorPath.2 ColorButton.initState
      (by decide)).2 (QColor.fromRgb 0 0 0 255)⟩

/-- C10: with an invalid stored color, a drag gesture past the drag
threshold starts no drag at all — `mouseMoveEvent` returns the state
unchanged with no payload — and, conversely, every payload `__dragIt`
ever exports carries exactly the stored color, which is valid at that
point (and building it changes no state). -/
theorem invalidColorNeverDragged :
    (∀ (buttons : Nat) (pos : Int × Int) (startDragDistance : Int)
        (s : ColorButton.State), s.color = QColor.invalid →
      ColorButton.mouseMoveEvent buttons pos startDragDistance s = (s, none)) ∧
      (∀ (s : ColorButton.State) (m : ColorButton.MimeData),
        (ColorButton.dragIt s).2 = some m →
          m.colorData = s.color ∧ s.color.isValid = true ∧
            (ColorButton.dragIt s).1 = s) := by
  constructor
  · intro buttons pos d s h
    unfold ColorButton.mouseMoveEvent ColorButton.dragIt
    rw [h]
    simp [QColor.isValid]
  · intro s m h
    by_cases hv : s.color.isValid
    · unfold ColorButton.dragIt at h ⊢
      rw [hv] at h ⊢
      simp at h
      simp [← h]
    · unfold ColorButton.dragIt at h
      rw [Bool.not_eq_true] at hv
      rw [hv] at h
      simp at h

/-- Witness for `invalidColorNeverDragged`: the fresh button (invalid
default color) under a left-button move far past the drag threshold
starts no drag; a button holding opaque red exports a payload carrying
exactly that color. -/
theorem invalidColorNeverDragged_witness :
    ColorButton.mouseMoveEvent 1 (100, 100) 10 ColorButton.initState =
        (ColorButton.initState, none) ∧
      (⟨true, QColor.fromRgb 255 0 0 255⟩ : ColorButton.MimeData).colorData =
        ({ ColorButton.initState with
            color := QColor.fromRgb 255 0 0 255 } : ColorButton.State).color :=
  ⟨invalidColorNeverDragged.1 1 (100, 100) 10 ColorButton.initState (by decide),
   (invalidColorNeverDragged.2
      { ColorButton.initState with color := QColor.fromRgb 255 0 0 255 }
      ⟨true, QColor.fromRgb 255 0 0 255⟩ (by decide)).1⟩

/-- C7: the four hex string forms `#FF0000`, `#f00`, `#FF0000FF` and
`#f00f` all parse — through the string overload of `ColorBox.setColor`
— to the same stored color, opaque red with 8-bit channels
`(r, g, b, a) = (255, 0, 0, 255)`. -/
theorem hexFormsParseToSameOpaqueRed :
    (ColorBox.setColorStr "#FF0000" ColorBox.initState).map
        (fun st => st.storedColor.map QColor.getRgb) =
      .ok (some (255, 0, 0, 255)) ∧
    (ColorBox.setColorStr "#f00" ColorBox.initState).map
        (fun st => st.storedColor.map QColor.getRgb) =
      .ok (some (255, 0, 0, 255)) ∧
    (ColorBox.setColorStr "#FF0000FF" ColorBox.initState).map
        (fun st => st.storedColor.map QColor.getRgb) =
      .ok (some (255, 0, 0, 255)) ∧
    (ColorBox.setColorStr "#f00f" ColorBox.initState).map
        (fun st => st.storedColor.map QColor.getRgb) =
      .ok (some (255, 0, 0, 255)) ∧
    (ColorBox.setColorStr "#FF0000" ColorBox.initState).map (·.storedColor) =
      (ColorBox.setColorStr "#f00" ColorBox.initState).map (·.storedColor) ∧
    (ColorBox.setColorStr "#FF0000" ColorBox.initState).map (·.storedColor) =
      (ColorBox.setColorStr "#FF0000FF" ColorBox.initState).map (·.storedColor) ∧
    (ColorBox.setColorStr "#FF0000" ColorBox.initState).map (·.storedColor) =
      (ColorBox.setColorStr "#f00f" ColorBox.initState).map (·.storedColor) := by
  refine ⟨?_, ?_, ?_, ?_, ?_, ?_, ?_⟩ <;> decide

/-- C6: every malformed textual color specification — lowercased and
stripped to a nonempty string that is not a recognised color name and
either misses the leading `#`, contains a non-hex character, or has a
length other than 4, 5, 7 or 9 — makes the string overload of
`ColorBox.setColor` raise `ValueError` synchronously; the raise happens
before any assignment, so the previously stored color is untouched
(in this embedding the error return carries no new state). -/
theorem malformedStringRaisesValueError (raw : String) (st : ColorBox.State)
    (c0 : Char) (rest : List Char)
    (hname : QColor.colorNames.contains (ColorBox.normalizeColorString raw) = false)
    (hcs : (ColorBox.normalizeColorString raw).toList = c0 :: rest)
    (hbad : c0 ≠ '#' ∨
      rest.any (fun ch => !(ColorBox.validColors.toList.contains ch)) = true ∨
      ¬((c0 :: rest).length = 4 ∨ (c0 :: rest).length = 5 ∨
        (c0 :: rest).length = 7 ∨ (c0 :: rest).length = 9)) :
    ColorBox.setColorStr raw st =
      .error (.valueError
        ("Invalid color string: " ++ ColorBox.normalizeColorString raw ++ " ")) := by
  unfold ColorBox.setColorStr
  dsimp only
  rw [if_neg (by simpa using hname), hcs]
  dsimp only
  rw [if_pos hbad]

/-- Witness for `malformedStringRaisesValueError` at the two concrete
malformed inputs named by the specification, `"not-a-color"` (no `#`,
non-hex characters) and `"#12"` (wrong length), on a fresh box. -/
theorem malformedStringRaisesValueError_witness :
    ColorBox.setColorStr "not-a-color" ColorBox.initState =
        .error (.valueError "Invalid color string: not-a-color ") ∧
      ColorBox.setColorStr "#12" ColorBox.initState =
        .error (.valueError "Invalid color string: #12 ") := by
  constructor
  · exact (malformedStringRaisesValueError "not-a-color" ColorBox.initState
      'n' "ot-a-color".toList (by decide) (by decide) (by decide)).trans (by decide)
  · exact (malformedStringRaisesValueError "#12" ColorBox.initState
      '#' "12".toList (by decide) (by decide) (by decide)).trans (by decide)

/-- The base `clamp` overload on an `int` channel is the nearest-bound
clamp into `[0, 255]`. -/
theorem clampInt255_int (x : Int) :
    ColorBox.clampInt255 (.i x) = .i (specClampInt x) := by
  unfold ColorBox.clampInt255 pyMin pyMax specClampInt
  dsimp [PyNum.toFrac, Frac.ltb, Frac.ofInt]
  split <;> split <;>
    (first
      | rfl
      | (congr 1; simp_all only [decide_eq_true_eq, decide_eq_false_iff_not]; omega))

/-- The `float` `clamp` overload on a `float` channel is the
nearest-bound clamp into `[0.0, 1.0]`. -/
theorem clampFloat1_frac (q : Frac) :
    (ColorBox.clampFloat1 (.f q)).toFrac = specClampFrac q := by
  by_cases h1 : q.num * 1 < 1 * q.den
  · have e1 : pyMin (.i 1) (.f q) = .f q := by
      simp only [pyMin, PyNum.toFrac, Frac.ltb, Frac.ofInt, decide_eq_true_eq]
      rw [if_pos h1]
    by_cases h2 : (0 : Int) * q.den < q.num * 1
    · have e2 : pyMax (.i 0) (.f q) = .f q := by
        simp only [pyMax, PyNum.toFrac, Frac.ltb, Frac.ofInt, decide_eq_true_eq]
        rw [if_pos h2]
      rw [ColorBox.clampFloat1, e1, e2]
      rw [specClampFrac,
        if_neg (by simp only [Frac.leb, Frac.ofInt, decide_eq_true_eq]; omega),
        if_neg (by simp only [Frac.leb, Frac.ofInt, decide_eq_true_eq]; omega)]
      rfl
    · have e2 : pyMax (.i 0) (.f q) = .i 0 := by
        simp only [pyMax, PyNum.toFrac, Frac.ltb, Frac.ofInt, decide_eq_true_eq]
        rw [if_neg h2]
      rw [ColorBox.clampFloat1, e1, e2]
      rw [specClampFrac,
        if_neg (by simp only [Frac.leb, Frac.ofInt, decide_eq_true_eq]; omega),
        if_pos (by simp only [Frac.leb, Frac.ofInt, decide_eq_true_eq]; omega)]
      rfl
  · have e1 : pyMin (.i 1) (.f q) = .i 1 := by
      simp only [pyMin, PyNum.toFrac, Frac.ltb, Frac.ofInt, decide_eq_true_eq]
      rw [if_neg h1]
    have e2 : pyMax (.i 0) (.i 1) = .i 1 := by
      simp only [pyMax, PyNum.toFrac, Frac.ltb, Frac.ofInt, decide_eq_true_eq]
      rw [if_pos (by omega)]
    rw [ColorBox.clampFloat1, e1, e2]
    rw [specClampFrac,
      if_pos (by simp only [Frac.leb, Frac.ofInt, decide_eq_true_eq]; omega)]
    rfl

/-- `ColorBox.update` recomputes channels and tooltip but never touches
the stored color. -/
theorem update_storedColor (s : ColorBox.State) :
    (ColorBox.update s).storedColor = s.storedColor := by
  rcases hsc : s.storedColor with _ | c
  · simp only [ColorBox.update, hsc]
  · simp only [ColorBox.update, hsc]
    split <;> rfl

/-- Qt's 16-bit → 8-bit conversion inverts the 8-bit → 16-bit scaling
by 257. -/
theorem qtDiv257_mul (n : Nat) (h : n ≤ 255) :
    QColor.qtDiv257 (n * 257) = n := by
  simp only [QColor.qtDiv257, Nat.shiftRight_eq_div_pow]
  omega

/-- For in-range channels, `getRgb` reads back exactly what `fromRgb`
stored. -/
theorem getRgb_fromRgb (r g b a : Int)
    (hr : 0 ≤ r ∧ r ≤ 255) (hg : 0 ≤ g ∧ g ≤ 255)
    (hb : 0 ≤ b ∧ b ≤ 255) (ha : 0 ≤ a ∧ a ≤ 255) :
    QColor.getRgb (QColor.fromRgb r g b a) = (r, g, b, a) := by
  have key : ∀ x : Int, 0 ≤ x → x ≤ 255 →
      ((QColor.qtDiv257 (x.toNat * 257) : Nat) : Int) = x := by
    intro x h0 h1
    rw [qtDiv257_mul x.toNat (by omega)]
    omega
  rw [QColor.fromRgb, if_pos ⟨hr.1, hr.2, hg.1, hg.2, hb.1, hb.2, ha.1, ha.2⟩]
  show (((QColor.qtDiv257 (r.toNat * 257) : Nat) : Int), _, _, _) = _
  rw [key r hr.1 hr.2, key g hg.1 hg.2, key b hb.1 hb.2, key a ha.1 ha.2]

/-- The nearest-bound integer clamp lands inside `[0, 255]`. -/
theorem specClampInt_range (x : Int) :
    0 ≤ specClampInt x ∧ specClampInt x ≤ 255 := by
  unfold specClampInt
  omega

/-- C8: numeric channel tuples passed to `ColorBox.setColor` are
clamped, never rejected: an all-`int` tuple always succeeds and stores
the color whose 8-bit channels are each input clamped to the nearest
bound of `[0, 255]` (read back exactly by `getRgb`); an all-`float`
tuple always succeeds and stores `fromRgbF` of each input clamped to
the nearest bound of `[0.0, 1.0]`, the clamped channels lying inside
`[0, 1]`.  (Dispatch follows the red channel's runtime type, so a
mixed-type tuple is clamped entirely by the red channel's rule — the
source docstring documents this; the claim's per-type reading applies
to the homogeneous tuples quantified here.) -/
theorem numericChannelsClampedNotRejected :
    (∀ (r g b a : Int) (st : ColorBox.State),
      ∃ st', ColorBox.setColorNum (.i r) (.i g) (.i b) (.i a) st = .ok st' ∧
        st'.storedColor = some (QColor.fromRgb (specClampInt r) (specClampInt g)
          (specClampInt b) (specClampInt a)) ∧
        st'.storedColor.map QColor.getRgb =
          some (specClampInt r, specClampInt g, specClampInt b, specClampInt a)) ∧
    (∀ (r g b a : Frac) (st : ColorBox.State),
      ∃ st', ColorBox.setColorNum (.f r) (.f g) (.f b) (.f a) st = .ok st' ∧
        st'.storedColor = some (QColor.fromRgbF (specClampFrac r) (specClampFrac g)
          (specClampFrac b) (specClampFrac a)) ∧
        ((Frac.ofInt 0).leb (specClampFrac r) = true ∧
          (specClampFrac r).leb (Frac.ofInt 1) = true) ∧
        ((Frac.ofInt 0).leb (specClampFrac g) = true ∧
          (specClampFrac g).leb (Frac.ofInt 1) = true) ∧
        ((Frac.ofInt 0).leb (specClampFrac b) = true ∧
          (specClampFrac b).leb (Frac.ofInt 1) = true) ∧
        ((Frac.ofInt 0).leb (specClampFrac a) = true ∧
          (specClampFrac a).leb (Frac.ofInt 1) = true)) := by
  have bounds : ∀ q : Frac, (Frac.ofInt 0).leb (specClampFrac q) = true ∧
      (specClampFrac q).leb (Frac.ofInt 1) = true := by
    intro q
    unfold specClampFrac
    split
    · constructor <;> simp [Frac.leb, Frac.ofInt]
    · split
      · constructor <;> simp [Frac.leb, Frac.ofInt]
      · simp_all only [Frac.leb, Frac.ofInt, decide_eq_true_eq, decide_eq_false_iff_not]
        omega
  constructor
  · intro r g b a st
    have e : ColorBox.setColorNum (.i r) (.i g) (.i b) (.i a) st =
        .ok (ColorBox.update { st with
          storedColor := some (QColor.fromRgb (specClampInt r) (specClampInt g)
            (specClampInt b) (specClampInt a)),
          rgbVal := .ints
            (QColor.getRgb (QColor.fromRgb (specClampInt r) (specClampInt g)
              (specClampInt b) (specClampInt a))).1
            (QColor.getRgb (QColor.fromRgb (specClampInt r) (specClampInt g)
              (specClampInt b) (specClampInt a))).2.1
            (QColor.getRgb (QColor.fromRgb (specClampInt r) (specClampInt g)
              (specClampInt b) (specClampInt a))).2.2.1
            (QColor.getRgb (QColor.fromRgb (specClampInt r) (specClampInt g)
              (specClampInt b) (specClampInt a))).2.2.2 }) := by
      rw [ColorBox.setColorNum]
      rw [clampInt255_int r, clampInt255_int g, clampInt255_int b, clampInt255_int a]
      rfl
    refine ⟨_, e, ?_, ?_⟩
    · rw [update_storedColor]
    · rw [update_storedColor]
      show some (QColor.getRgb (QColor.fromRgb _ _ _ _)) = _
      rw [getRgb_fromRgb _ _ _ _ (specClampInt_range r) (specClampInt_range g)
        (specClampInt_range b) (specClampInt_range a)]
  · intro r g b a st
    have e : ColorBox.setColorNum (.f r) (.f g) (.f b) (.f a) st =
        .ok (ColorBox.update { st with
          storedColor := some (QColor.fromRgbF (specClampFrac r) (specClampFrac g)
            (specClampFrac b) (specClampFrac a)),
          rgbVal := .floats
            (QColor.getRgbF (QColor.fromRgbF (specClampFrac r) (specClampFrac g)
              (specClampFrac b) (specClampFrac a))).1
            (QColor.getRgbF (QColor.fromRgbF (specClampFrac r) (specClampFrac g)
              (specClampFrac b) (specClampFrac a))).2.1
            (QColor.getRgbF (QColor.fromRgbF (specClampFrac r) (specClampFrac g)
              (specClampFrac b) (specClampFrac a))).2.2.1
            (QColor.getRgbF (QColor.fromRgbF (specClampFrac r) (specClampFrac g)
              (specClampFrac b) (specClampFrac a))).2.2.2 }) := by
      rw [ColorBox.setColorNum]
      rw [clampFloat1_frac r, clampFloat1_frac g, clampFloat1_frac b, clampFloat1_frac a]
      rfl
    refine ⟨_, e, ?_, bounds r, bounds g, bounds b, bounds a⟩
    rw [update_storedColor]
